import Mathlib

/-!
Verification of the Inferno Python client (`examples/python_client.py`).

The development shallowly embeds the client's observable behavior:

* `decode` models the event loop of `InfernoClient.stream_inference`
  (the generator body iterating over `sseclient` events);
* `batch_inference_body` / `rest_call` model `InfernoClient.batch_inference`
  and the other REST helpers (`raise_for_status` + `response.json()[...]`);
* `session_headers` and the per-operation request builders model the
  `requests.Session` header handling from `InfernoClient.__init__`;
* `WsClientState` / `send_inference` model `InfernoWebSocketClient`.

Machine-level details that no claim depends on (actual socket I/O, float
values of sampling parameters, URL string normalization) are abstracted:
request bodies are association lists over an opaque value type, and
responses are records carrying a status code and an optionally-decodable
body.
-/

namespace Inferno

/-- A parsed event-stream frame: a JSON object with optional `token`,
`done` and `error` keys.  `done : Bool` records *presence* of the key
(the source tests `'done' in data`, regardless of the key's value). -/
structure Frame where
  token : Option String
  done : Bool
  error : Option String
deriving DecidableEq, Repr

/-- A raw frame as pulled from the transport: `none` models an
`event.data` payload on which `json.loads` raises, `some f` a payload
that parses to the JSON object `f`. -/
abbrev RawFrame := Option Frame

/-- How the `stream_inference` generator terminates, as observable by its
consumer.  `clean` covers both the `break` on a done-frame and the
generator simply returning when the event iterator is exhausted — the two
are indistinguishable to the caller (both end iteration without an
exception).  `streamError` models the `Exception` raised for an
error-frame (message `"Stream error: " ++ msg`); `parseError` models the
`json.JSONDecodeError` escaping from `json.loads`.
`incompleteStreamError` is the error the specification's taxonomy (§7)
assigns to a transport that closes without a terminal frame; the source
defines no such exception and no code path produces it — the constructor
is included so that its unreachability can be stated. -/
inductive StreamOutcome
  | clean
  | streamError (msg : String)
  | parseError
  | incompleteStreamError
deriving DecidableEq, Repr

/-- Result of running the `stream_inference` event loop over a whole
frame sequence: the tokens yielded, in order, and the terminal outcome. -/
structure DecodeResult where
  tokens : List String
  outcome : StreamOutcome
deriving DecidableEq, Repr

/-- The event loop of `InfernoClient.stream_inference`:
`for event in client.events(): data = json.loads(event.data);
 if 'token' in data: yield data['token']
 elif 'done' in data: break
 elif 'error' in data: raise Exception(...)`.
A frame with a `token` key yields and continues (the `elif`s are not
reached); a `done` key breaks; an `error` key raises; a frame with none
of the keys falls through the chain and the loop continues; an
unparseable frame raises out of `json.loads`; running out of frames ends
the generator. -/
def decode : List RawFrame → DecodeResult
  | [] => ⟨[], .clean⟩
  | none :: _ => ⟨[], .parseError⟩
  | some f :: rest =>
    match f.token with
    | some t =>
      let r := decode rest
      ⟨t :: r.tokens, r.outcome⟩
    | none =>
      if f.done then ⟨[], .clean⟩
      else
        match f.error with
        | some e => ⟨[], .streamError e⟩
        | none => decode rest

/-- A raw frame that parses and carries neither a `done` nor an `error`
key: the loop always continues past it (yielding iff it has a token). -/
def nonterminal : RawFrame → Bool
  | some f => !f.done && f.error == none
  | none => false

/-- The token carried by a raw frame, if any. -/
def frameToken (rf : RawFrame) : Option String :=
  rf.bind Frame.token

theorem decode_nonterminal_split (pre rest : List RawFrame)
    (hpre : pre.all nonterminal = true) :
    decode (pre ++ rest) =
      ⟨pre.filterMap frameToken ++ (decode rest).tokens, (decode rest).outcome⟩ := by
  induction pre with
  | nil => simp
  | cons rf pre ih =>
    simp only [List.all_cons, Bool.and_eq_true] at hpre
    obtain ⟨hrf, hpre⟩ := hpre
    match rf with
    | none => simp [nonterminal] at hrf
    | some f =>
      simp only [nonterminal, Bool.and_eq_true, Bool.not_eq_true', beq_iff_eq] at hrf
      obtain ⟨hdone, herror⟩ := hrf
      match htok : f.token with
      | some t =>
        simp [decode, htok, ih hpre, frameToken, List.filterMap_cons]
      | none =>
        simp [decode, htok, hdone, herror, ih hpre, frameToken, List.filterMap_cons]

/-- C1.  Stream decoding rule: over frames each carrying at most one of
the protocol keys, every token-frame before the first terminal frame
yields its token, in frame order; a first terminal frame carrying a done
marker ends the sequence cleanly without yielding for that frame, and a
first terminal frame carrying an error field ends it by raising the
error (no clean termination); frames after the terminal frame are never
read (the result does not depend on `suf`). -/
theorem stream_decode_terminal_rule (pre suf : List RawFrame) (t : Frame)
    (hpre : pre.all nonterminal = true)
    (htok : t.token = none)
    (hterm : t.done = true ∨ t.error.isSome) :
    decode (pre ++ some t :: suf) =
      ⟨pre.filterMap frameToken,
       if t.done then .clean else .streamError (t.error.getD "")⟩ := by
  rw [decode_nonterminal_split pre (some t :: suf) hpre]
  match hdone : t.done with
  | true => simp [decode, htok, hdone]
  | false =>
    rcases hterm with h | h
    · rw [hdone] at h
      exact absurd h (by simp)
    · match herr : t.error with
      | some e => simp [decode, htok, hdone, herr]
      | none => simp [herr] at h

/-- Witness for C1: frames `[{token:"a"}, {token:"b"}, {done:true}]`
followed by a frame that would raise if it were read decode to exactly
`["a", "b"]` with clean termination — the trailing frame is not read. -/
theorem stream_decode_terminal_rule_witness :
    decode [some ⟨some "a", false, none⟩, some ⟨some "b", false, none⟩,
            some ⟨none, true, none⟩, none] = ⟨["a", "b"], .clean⟩ := by
  have h := stream_decode_terminal_rule
    [some ⟨some "a", false, none⟩, some ⟨some "b", false, none⟩] [none]
    ⟨none, true, none⟩ (by decide) rfl (Or.inl rfl)
  simpa using h

/-- C6 counterexample.  When the transport closes after `[{token:"a"}]`
with no terminal frame, the generator terminates cleanly — exactly as if
the stream had completed — and in particular its outcome is not the
`IncompleteStreamError` the claim requires. -/
theorem stream_close_clean_counterexample :
    decode [some ⟨some "a", false, none⟩] = ⟨["a"], .clean⟩ ∧
    (decode [some ⟨some "a", false, none⟩]).outcome ≠ .incompleteStreamError := by
  constructor
  · rfl
  · decide

/-- C6 amended.  No code path of the decoder ever produces
`IncompleteStreamError`; when every frame parses and none carries a
terminal key, exhaustion of the transport ends the generator cleanly
with exactly the tokens observed, indistinguishable from a
done-terminated stream. -/
theorem stream_exhaustion_clean (frames : List RawFrame) :
    (decode frames).outcome ≠ .incompleteStreamError ∧
    (frames.all nonterminal = true →
      decode frames = ⟨frames.filterMap frameToken, .clean⟩) := by
  constructor
  · induction frames with
    | nil => simp [decode]
    | cons rf rest ih =>
      match rf with
      | none => simp [decode]
      | some f =>
        match htok : f.token with
        | some t => simpa [decode, htok] using ih
        | none =>
          match hdone : f.done with
          | true => simp [decode, htok, hdone]
          | false =>
            match herr : f.error with
            | some e => simp [decode, htok, hdone, herr]
            | none => simpa [decode, htok, hdone, herr] using ih
  · intro hall
    have h := decode_nonterminal_split frames [] hall
    simpa [decode] using h

/-- Witness for C6 amended: at frames `[{token:"a"}]` the outcome is not
`IncompleteStreamError` and decoding yields `["a"]` with clean
termination. -/
theorem stream_exhaustion_clean_witness :
    (decode [some ⟨some "a", false, none⟩]).outcome ≠ .incompleteStreamError ∧
    decode [some ⟨some "a", false, none⟩] =
      ⟨List.filterMap frameToken [some ⟨some "a", false, none⟩], .clean⟩ :=
  ⟨(stream_exhaustion_clean [some ⟨some "a", false, none⟩]).1,
   (stream_exhaustion_clean [some ⟨some "a", false, none⟩]).2 (by decide)⟩

/-- C7.  A frame whose payload fails to parse (the `json.loads` call
raises) ends traversal with the parse failure — an outcome distinct from
every other terminal signal — after yielding exactly the tokens of the
frames before it; the frames after it are never read (the result does
not depend on `suf`). -/
theorem stream_parse_failure_terminal (pre suf : List RawFrame)
    (hpre : pre.all nonterminal = true) :
    decode (pre ++ none :: suf) =
      ⟨pre.filterMap frameToken, .parseError⟩ ∧
    ∀ m, StreamOutcome.parseError ≠ .streamError m := by
  constructor
  · rw [decode_nonterminal_split pre (none :: suf) hpre]
    simp [decode]
  · intro m
    simp

/-- Witness for C7: frames `[{token:"a"}, <unparseable>, {token:"b"}]`
decode to `["a"]` with a parse failure; the trailing frame is unread. -/
theorem stream_parse_failure_terminal_witness :
    decode ([some ⟨some "a", false, none⟩] ++ none :: [some ⟨some "b", false, none⟩]) =
      ⟨List.filterMap frameToken [some ⟨some "a", false, none⟩], .parseError⟩ ∧
    ∀ m, StreamOutcome.parseError ≠ .streamError m :=
  stream_parse_failure_terminal [some ⟨some "a", false, none⟩]
    [some ⟨some "b", false, none⟩] (by decide)

/-- C10.  A frame that parses to a JSON object carrying none of the keys
`token`, `done`, `error` falls through the whole `if`/`elif` chain: the
loop yields nothing for it and continues with the remaining frames
exactly as if the frame were absent. -/
theorem unrecognized_frame_skipped (f : Frame) (rest : List RawFrame)
    (htok : f.token = none) (hdone : f.done = false) (herr : f.error = none) :
    decode (some f :: rest) = decode rest := by
  simp [decode, htok, hdone, herr]

/-- Witness for C10: `[{foo-like empty frame}, {token:"a"}, {done:true}]`
decodes exactly like `[{token:"a"}, {done:true}]`. -/
theorem unrecognized_frame_skipped_witness :
    decode (some ⟨none, false, none⟩ ::
            [some ⟨some "a", false, none⟩, some ⟨none, true, none⟩]) =
      decode [some ⟨some "a", false, none⟩, some ⟨none, true, none⟩] :=
  unrecognized_frame_skipped ⟨none, false, none⟩
    [some ⟨some "a", false, none⟩, some ⟨none, true, none⟩] rfl rfl rfl

/-- Typed errors a client call can surface.  `serverError` models the
`requests.HTTPError` raised by `response.raise_for_status()` on a
non-success status; `protocolError` models a response body that cannot
be decoded as the expected shape (`json.JSONDecodeError` / `KeyError`
from `response.json()[...]`); `notConnectedError` models the
`Exception("Not connected to WebSocket")` raised by
`InfernoWebSocketClient.send_inference`.  `notReadyError` is the error
the specification's taxonomy (§7) assigns to fetching batch results
before completion; the source defines no such exception and no code path
produces it — the constructor is included so that its unreachability can
be stated. -/
inductive ClientError
  | serverError (status : Nat)
  | protocolError
  | notConnectedError
  | notReadyError
deriving DecidableEq, Repr

/-- An HTTP response as the client observes it: a status code and a body
that either decodes as the shape `β` the caller extracts (`some b`) or
fails to (`none`). -/
structure HttpResponse (β : Type) where
  status : Nat
  body : Option β
deriving DecidableEq, Repr

/-- The shared tail of every REST helper:
`response.raise_for_status()` (which raises `HTTPError` for 4xx/5xx
statuses) followed by extracting the expected shape from
`response.json()`. -/
def rest_call {β : Type} (resp : HttpResponse β) : Except ClientError β :=
  if 400 ≤ resp.status ∧ resp.status < 600 then
    .error (.serverError resp.status)
  else
    match resp.body with
    | some b => .ok b
    | none => .error .protocolError

/-- One sub-request of a batch submission: `{'id': f'req_{i}', 'prompt': prompt}`. -/
structure BatchSubRequest where
  id : String
  prompt : String
deriving DecidableEq, Repr

/-- The list comprehension of `batch_inference`:
`[{'id': f'req_{i}', 'prompt': p} for i, p in enumerate(prompts)]`,
with `i` starting at the given index. -/
def number_requests (i : Nat) : List String → List BatchSubRequest
  | [] => []
  | p :: rest => ⟨"req_" ++ toString i, p⟩ :: number_requests (i + 1) rest

/-- Python truthiness of an optional string (`if webhook_url:` /
`if api_key:`): `None` and the empty string are falsy. -/
def pyTruthy : Option String → Bool
  | none => false
  | some s => !s.isEmpty

/-- The `request_data` dict built by `InfernoClient.batch_inference`:
model, numbered sub-requests, max_tokens, and — only when the
`webhook_url` argument is truthy — a `webhook_url` entry (`none` models
absence of the key). -/
structure BatchRequestBody where
  model : String
  requests : List BatchSubRequest
  max_tokens : Nat
  webhook_url : Option String
deriving DecidableEq, Repr

/-- Body construction of `InfernoClient.batch_inference`. -/
def batch_inference_body (model : String) (prompts : List String)
    (max_tokens : Nat) (webhook_url : Option String) : BatchRequestBody :=
  { model := model
    requests := number_requests 0 prompts
    max_tokens := max_tokens
    webhook_url := if pyTruthy webhook_url then webhook_url else none }

/-- Return value of `InfernoClient.batch_inference`:
`response.json()['batch_id']` after `raise_for_status`; the response
body shape is the extracted `batch_id` string. -/
def batch_inference_result (resp : HttpResponse String) : Except ClientError String :=
  rest_call resp

/-- Return value of `InfernoClient.get_batch_results`:
`response.json()['results']` after `raise_for_status`; each result entry
is modelled as a (correlation id, text) pair. -/
def get_batch_results (resp : HttpResponse (List (String × String))) :
    Except ClientError (List (String × String)) :=
  rest_call resp

theorem number_requests_ids (i : Nat) (prompts : List String) :
    (number_requests i prompts).map BatchSubRequest.id =
      (List.range' i prompts.length).map (fun j => "req_" ++ toString j) ∧
    (number_requests i prompts).map BatchSubRequest.prompt = prompts := by
  induction prompts generalizing i with
  | nil => simp [number_requests]
  | cons p rest ih =>
    have h := ih (i + 1)
    simp [number_requests, List.range'_succ, h.1, h.2]

/-- C2 counterexample.  With `webhook_url = Some ""` the argument *was*
provided, yet the built body carries no `webhook_url` entry (the source
guards with Python truthiness, `if webhook_url:`), falsifying the
claimed "if and only if a webhook URL argument was provided". -/
theorem batch_webhook_provided_counterexample :
    (batch_inference_body "m" ["p0", "p1"] 100 (some "")).webhook_url = none := by
  decide

/-- C2 amended.  `batch_inference` builds exactly one sub-request per
prompt, with id `req_<index>` for the prompt's zero-based position and
prompts in input order; the body carries a `webhook_url` entry iff a
*non-empty* webhook URL argument was provided (Python truthiness); and
on a success response the call returns the server-assigned `batch_id`
field. -/
theorem batch_inference_spec (model : String) (prompts : List String)
    (max_tokens : Nat) (webhook_url : Option String)
    (status : Nat) (batch_id : String)
    (hok : ¬ (400 ≤ status ∧ status < 600)) :
    (batch_inference_body model prompts max_tokens webhook_url).requests.map
        BatchSubRequest.id =
      (List.range prompts.length).map (fun j => "req_" ++ toString j) ∧
    (batch_inference_body model prompts max_tokens webhook_url).requests.map
        BatchSubRequest.prompt = prompts ∧
    (batch_inference_body model prompts max_tokens webhook_url).webhook_url =
      (if pyTruthy webhook_url then webhook_url else none) ∧
    batch_inference_result ⟨status, some batch_id⟩ = .ok batch_id := by
  refine ⟨?_, ?_, rfl, ?_⟩
  · have h := number_requests_ids 0 prompts
    rw [batch_inference_body, h.1, List.range_eq_range']
  · exact (number_requests_ids 0 prompts).2
  · simp [batch_inference_result, rest_call, hok]

/-- Witness for C2 amended: three prompts get ids `req_0, req_1, req_2`
in order, a provided non-empty webhook URL is included, and a 200
response with `batch_id = "b42"` returns `"b42"`. -/
theorem batch_inference_spec_witness :
    (batch_inference_body "m" ["p0", "p1", "p2"] 100 (some "http://w")).requests.map
        BatchSubRequest.id =
      (List.range (["p0", "p1", "p2"] : List String).length).map
        (fun j => "req_" ++ toString j) ∧
    (batch_inference_body "m" ["p0", "p1", "p2"] 100 (some "http://w")).requests.map
        BatchSubRequest.prompt = ["p0", "p1", "p2"] ∧
    (batch_inference_body "m" ["p0", "p1", "p2"] 100 (some "http://w")).webhook_url =
      (if pyTruthy (some "http://w") then some "http://w" else none) ∧
    batch_inference_result ⟨200, some "b42"⟩ = .ok "b42" :=
  batch_inference_spec "m" ["p0", "p1", "p2"] 100 (some "http://w") 200 "b42" (by decide)

/-- C5 counterexample.  `get_batch_results` consults nothing but the
HTTP response: whatever the job's status, a non-success server reply
surfaces as `ServerError` — not the claimed `NotReadyError` — and a
success reply returns the results unconditionally, with no client-side
readiness check. -/
theorem get_batch_results_no_ready_check :
    get_batch_results ⟨409, some []⟩ = .error (.serverError 409) ∧
    get_batch_results ⟨409, some []⟩ ≠ .error .notReadyError ∧
    get_batch_results ⟨200, some [("req_0", "r0")]⟩ = .ok [("req_0", "r0")] := by
  refine ⟨rfl, ?_, rfl⟩
  intro h
  simp [get_batch_results, rest_call] at h

/-- C5 amended.  The client performs no readiness check and never raises
`NotReadyError`: `get_batch_results` unconditionally issues the fetch; a
4xx/5xx response surfaces as `ServerError` carrying the status; a
success response returns the server's results list verbatim, in the
order the server sent it; any readiness enforcement is the server's. -/
theorem get_batch_results_spec (resp : HttpResponse (List (String × String)))
    (results : List (String × String)) :
    get_batch_results resp ≠ .error .notReadyError ∧
    (400 ≤ resp.status ∧ resp.status < 600 →
      get_batch_results resp = .error (.serverError resp.status)) ∧
    (¬ (400 ≤ resp.status ∧ resp.status < 600) → resp.body = some results →
      get_batch_results resp = .ok results) := by
  refine ⟨?_, ?_, ?_⟩
  · unfold get_batch_results rest_call
    split
    · simp
    · match h : resp.body with
      | some b => simp [h]
      | none => simp [h]
  · intro h
    simp [get_batch_results, rest_call, h]
  · intro h hb
    simp [get_batch_results, rest_call, h, hb]

/-- Witness for C5 amended: a 200 response carrying one result returns
it, is not a `NotReadyError`, and the error branch is vacuous there. -/
theorem get_batch_results_spec_witness :
    get_batch_results ⟨200, some [("req_0", "r0")]⟩ ≠ .error .notReadyError ∧
    (400 ≤ 200 ∧ 200 < 600 →
      get_batch_results (⟨200, some [("req_0", "r0")]⟩ :
        HttpResponse (List (String × String))) = .error (.serverError 200)) ∧
    (¬ (400 ≤ 200 ∧ 200 < 600) →
      (⟨200, some [("req_0", "r0")]⟩ :
        HttpResponse (List (String × String))).body = some [("req_0", "r0")] →
      get_batch_results ⟨200, some [("req_0", "r0")]⟩ = .ok [("req_0", "r0")]) :=
  get_batch_results_spec ⟨200, some [("req_0", "r0")]⟩ [("req_0", "r0")]

/-- Client configuration from `InfernoClient.__init__`: base URL and the
optional API key. -/
structure ClientConfig where
  base_url : String
  api_key : Option String
deriving DecidableEq, Repr

/-- The default headers installed on the `requests.Session` by
`InfernoClient.__init__`: an `Authorization: Bearer <key>` entry when a
truthy API key was given (`if api_key:`), always a `Content-Type`. -/
def session_headers (api_key : Option String) : List (String × String) :=
  (match api_key with
   | some k => if k.isEmpty then [] else [("Authorization", "Bearer " ++ k)]
   | none => []) ++ [("Content-Type", "application/json")]

/-- An outgoing HTTP request: method, path relative to the base URL, and
the headers it is sent with. -/
structure HttpRequest where
  method : String
  path : String
  headers : List (String × String)
deriving DecidableEq, Repr

/-- `GET /health` from `health_check`. -/
def health_check_request (c : ClientConfig) : HttpRequest :=
  ⟨"GET", "/health", session_headers c.api_key⟩

/-- `GET /models` from `list_models`. -/
def list_models_request (c : ClientConfig) : HttpRequest :=
  ⟨"GET", "/models", session_headers c.api_key⟩

/-- `POST /models/{id}/load` from `load_model`. -/
def load_model_request (c : ClientConfig) (model_id : String) : HttpRequest :=
  ⟨"POST", "/models/" ++ model_id ++ "/load", session_headers c.api_key⟩

/-- `POST /models/{id}/unload` from `unload_model`. -/
def unload_model_request (c : ClientConfig) (model_id : String) : HttpRequest :=
  ⟨"POST", "/models/" ++ model_id ++ "/unload", session_headers c.api_key⟩

/-- `POST /inference` from `inference`. -/
def inference_request (c : ClientConfig) : HttpRequest :=
  ⟨"POST", "/inference", session_headers c.api_key⟩

/-- `POST /inference/stream` from `stream_inference`; the per-call
`headers={'Accept': 'text/event-stream'}` argument is merged by
`requests` with the session's default headers. -/
def stream_inference_request (c : ClientConfig) : HttpRequest :=
  ⟨"POST", "/inference/stream",
   session_headers c.api_key ++ [("Accept", "text/event-stream")]⟩

/-- `POST /embeddings` from `embeddings`. -/
def embeddings_request (c : ClientConfig) : HttpRequest :=
  ⟨"POST", "/embeddings", session_headers c.api_key⟩

/-- `POST /v1/chat/completions` from `chat_completion`. -/
def chat_completion_request (c : ClientConfig) : HttpRequest :=
  ⟨"POST", "/v1/chat/completions", session_headers c.api_key⟩

/-- `POST /batch` from `batch_inference`. -/
def batch_inference_request (c : ClientConfig) : HttpRequest :=
  ⟨"POST", "/batch", session_headers c.api_key⟩

/-- `GET /batch/{id}` from `get_batch_status`. -/
def get_batch_status_request (c : ClientConfig) (batch_id : String) : HttpRequest :=
  ⟨"GET", "/batch/" ++ batch_id, session_headers c.api_key⟩

/-- `GET /batch/{id}/results` from `get_batch_results`. -/
def get_batch_results_request (c : ClientConfig) (batch_id : String) : HttpRequest :=
  ⟨"GET", "/batch/" ++ batch_id ++ "/results", session_headers c.api_key⟩

/-- Outbound messages of `InfernoWebSocketClient`:
`{'type': 'auth', 'token': key}` and
`{'type': 'inference', 'id': ..., 'model': ..., 'prompt': ...,
  'max_tokens': ..., 'stream': True}`. -/
inductive DuplexOut
  | auth (tok : String)
  | inference (id model prompt : String) (max_tokens : Nat) (stream : Bool)
deriving DecidableEq, Repr

/-- The messages `InfernoWebSocketClient._on_open` sends on connection
open: exactly one `auth` message when a truthy API key is configured,
nothing otherwise. -/
def ws_on_open_messages (api_key : Option String) : List DuplexOut :=
  match api_key with
  | some k => if k.isEmpty then [] else [.auth k]
  | none => []

/-- C3.  With a non-empty API key configured, every REST operation's
request carries the `Authorization: Bearer <key>` header (health, model
list/load/unload, inference, stream inference, embeddings, chat
completion, batch submit/status/results), and the duplex session's
on-open handler sends the `auth` message carrying the key as its sole —
hence first — outbound message; with no truthy key configured, no
request carries an `Authorization` header and no `auth` message is
sent. -/
theorem bearer_credential_everywhere (base_url model_id batch_id k : String) :
    (¬ k.isEmpty →
      (let c : ClientConfig := ⟨base_url, some k⟩
       let auth := ("Authorization", "Bearer " ++ k)
       auth ∈ (health_check_request c).headers ∧
       auth ∈ (list_models_request c).headers ∧
       auth ∈ (load_model_request c model_id).headers ∧
       auth ∈ (unload_model_request c model_id).headers ∧
       auth ∈ (inference_request c).headers ∧
       auth ∈ (stream_inference_request c).headers ∧
       auth ∈ (embeddings_request c).headers ∧
       auth ∈ (chat_completion_request c).headers ∧
       auth ∈ (batch_inference_request c).headers ∧
       auth ∈ (get_batch_status_request c batch_id).headers ∧
       auth ∈ (get_batch_results_request c batch_id).headers ∧
       ws_on_open_messages (some k) = [.auth k])) ∧
    (∀ api_key : Option String, pyTruthy api_key = false →
      (let c : ClientConfig := ⟨base_url, api_key⟩
       (∀ v, ("Authorization", v) ∉ (health_check_request c).headers) ∧
       (∀ v, ("Authorization", v) ∉ (list_models_request c).headers) ∧
       (∀ v, ("Authorization", v) ∉ (load_model_request c model_id).headers) ∧
       (∀ v, ("Authorization", v) ∉ (unload_model_request c model_id).headers) ∧
       (∀ v, ("Authorization", v) ∉ (inference_request c).headers) ∧
       (∀ v, ("Authorization", v) ∉ (stream_inference_request c).headers) ∧
       (∀ v, ("Authorization", v) ∉ (embeddings_request c).headers) ∧
       (∀ v, ("Authorization", v) ∉ (chat_completion_request c).headers) ∧
       (∀ v, ("Authorization", v) ∉ (batch_inference_request c).headers) ∧
       (∀ v, ("Authorization", v) ∉ (get_batch_status_request c batch_id).headers) ∧
       (∀ v, ("Authorization", v) ∉ (get_batch_results_request c batch_id).headers) ∧
       ws_on_open_messages api_key = [])) := by
  constructor
  · intro hk
    rw [Bool.not_eq_true] at hk
    refine ⟨?_, ?_, ?_, ?_, ?_, ?_, ?_, ?_, ?_, ?_, ?_, ?_⟩ <;>
      simp [health_check_request, list_models_request, load_model_request,
        unload_model_request, inference_request, stream_inference_request,
        embeddings_request, chat_completion_request, batch_inference_request,
        get_batch_status_request, get_batch_results_request,
        session_headers, ws_on_open_messages, hk]
  · intro api_key hfalse
    have hsh : session_headers api_key = [("Content-Type", "application/json")] := by
      match api_key with
      | none => rfl
      | some s =>
        simp only [pyTruthy, Bool.not_eq_false'] at hfalse
        simp [session_headers, hfalse]
    have hws : ws_on_open_messages api_key = [] := by
      match api_key with
      | none => rfl
      | some s =>
        simp only [pyTruthy, Bool.not_eq_false'] at hfalse
        simp [ws_on_open_messages, hfalse]
    refine ⟨?_, ?_, ?_, ?_, ?_, ?_, ?_, ?_, ?_, ?_, ?_, hws⟩ <;>
      intro v <;>
      simp [health_check_request, list_models_request, load_model_request,
        unload_model_request, inference_request, stream_inference_request,
        embeddings_request, chat_completion_request, batch_inference_request,
        get_batch_status_request, get_batch_results_request, hsh]

/-- Witness for C3 at key `"k"`: the bearer header is on every request
and the auth message is the sole on-open message; with no key, no
`Authorization` header and no auth message. -/
theorem bearer_credential_everywhere_witness :
    ("Authorization", "Bearer " ++ "k") ∈
      (health_check_request ⟨"http://localhost:8080", some "k"⟩).headers ∧
    ws_on_open_messages (some "k") = [.auth "k"] ∧
    (∀ v, ("Authorization", v) ∉
      (health_check_request ⟨"http://localhost:8080", none⟩).headers) ∧
    ws_on_open_messages none = [] := by
  have h := bearer_credential_everywhere "http://localhost:8080" "m" "b" "k"
  have h1 := h.1 (by decide)
  have h2 := h.2 none (by decide)
  exact ⟨h1.1, h1.2.2.2.2.2.2.2.2.2.2.2, h2.1, h2.2.2.2.2.2.2.2.2.2.2.2⟩

/-- State of an `InfernoWebSocketClient` together with its underlying
transport.  `ws_created` is what the source can observe: whether
`connect()` has assigned `self.ws` (a `websocket.WebSocketApp` object).
`transport_open` models the underlying socket: whether the connection's
open handshake has completed (the source itself never consults it — that
is exactly what claim C4 is about). -/
structure WsClientState where
  api_key : Option String
  ws_created : Bool
  transport_open : Bool
deriving DecidableEq, Repr

/-- `InfernoWebSocketClient.__init__`: no websocket object yet. -/
def ws_init (api_key : Option String) : WsClientState :=
  ⟨api_key, false, false⟩

/-- `InfernoWebSocketClient.connect`: constructs the `WebSocketApp` and
assigns `self.ws`.  It does not open the connection — the open handshake
happens later, inside `run()` / `run_forever()`. -/
def ws_connect (s : WsClientState) : WsClientState :=
  { s with ws_created := true }

/-- Modelled from the spec (§4.3): the Ready state of a duplex session —
the session object exists and the transport's open handshake has
completed.  The source defines no such state; this definition exists to
compare the source's guard against the spec's. -/
def spec_ready (s : WsClientState) : Bool :=
  s.ws_created && s.transport_open

/-- `InfernoWebSocketClient.send_inference`: raises
`Exception("Not connected to WebSocket")` when `self.ws` is unset
(`if not self.ws:`), and otherwise builds and hands to the transport an
inference message with id `req_<int(time.time() * 1000)>` and
`stream: True`.  `time_ms` is the submission instant in milliseconds;
`.ok m` means the message `m` was passed to `self.ws.send`. -/
def send_inference (s : WsClientState) (model prompt : String)
    (max_tokens time_ms : Nat) : Except ClientError DuplexOut :=
  if s.ws_created then
    .ok (.inference ("req_" ++ toString time_ms) model prompt max_tokens true)
  else
    .error .notConnectedError

/-- C4 counterexample.  After `connect()` but before the transport's
open handshake (a state that is not Ready), `send_inference` does not
fail with `NotConnectedError`: it builds the message and hands it to the
transport — the source only guards on `self.ws` being unset. -/
theorem send_inference_not_ready_counterexample :
    spec_ready ⟨none, true, false⟩ = false ∧
    send_inference ⟨none, true, false⟩ "m" "p" 10 5 =
      .ok (.inference "req_5" "m" "p" 10 true) ∧
    send_inference ⟨none, true, false⟩ "m" "p" 10 5 ≠
      .error .notConnectedError := by
  refine ⟨rfl, rfl, ?_⟩
  intro h
  simp [send_inference] at h

/-- C4 amended.  `send_inference` fails with `NotConnectedError` exactly
when the websocket object has not been created (`connect` never called);
whenever the object exists — whether or not the connection is open — it
assigns the correlation id `req_<t>` for the submission instant `t` in
milliseconds and sends an inference message that always has
`stream = true`. -/
theorem send_inference_guard (s : WsClientState) (model prompt : String)
    (max_tokens time_ms : Nat) :
    (s.ws_created = false →
      send_inference s model prompt max_tokens time_ms = .error .notConnectedError) ∧
    (s.ws_created = true →
      send_inference s model prompt max_tokens time_ms =
        .ok (.inference ("req_" ++ toString time_ms) model prompt max_tokens true)) := by
  constructor
  · intro h
    simp [send_inference, h]
  · intro h
    simp [send_inference, h]

/-- Witness for C4 amended: before `connect` the call fails with
`NotConnectedError`; after `connect` it sends `req_7` with
`stream = true`. -/
theorem send_inference_guard_witness :
    (send_inference (ws_init none) "m" "p" 10 7 = .error .notConnectedError) ∧
    (send_inference (ws_connect (ws_init none)) "m" "p" 10 7 =
      .ok (.inference ("req_" ++ toString 7) "m" "p" 10 true)) :=
  ⟨(send_inference_guard (ws_init none) "m" "p" 10 7).1 rfl,
   (send_inference_guard (ws_connect (ws_init none)) "m" "p" 10 7).2 rfl⟩

/-- C9 counterexample.  Two distinct submissions (different model,
prompt and max_tokens) issued within the same millisecond — hence
possibly concurrently in flight — are both assigned the correlation id
`req_1000`: correlation ids can collide. -/
theorem correlation_id_collision_counterexample :
    send_inference ⟨none, true, true⟩ "m1" "p1" 10 1000 =
      .ok (.inference "req_1000" "m1" "p1" 10 true) ∧
    send_inference ⟨none, true, true⟩ "m2" "p2" 20 1000 =
      .ok (.inference "req_1000" "m2" "p2" 20 true) ∧
    ("m1", "p1", (10 : Nat)) ≠ ("m2", "p2", (20 : Nat)) := by
  refine ⟨rfl, rfl, by decide⟩

/-- C9 amended.  The correlation id is a function of the submission
instant alone — `req_<t>` for the millisecond timestamp `t` — so any two
submissions made in the same millisecond receive the same correlation
id, whatever their payloads; uniqueness holds only across distinct
millisecond timestamps. -/
theorem correlation_id_time_derived (s₁ s₂ : WsClientState)
    (m₁ p₁ m₂ p₂ : String) (mt₁ mt₂ t : Nat)
    (h₁ : s₁.ws_created = true) (h₂ : s₂.ws_created = true) :
    send_inference s₁ m₁ p₁ mt₁ t =
      .ok (.inference ("req_" ++ toString t) m₁ p₁ mt₁ true) ∧
    send_inference s₂ m₂ p₂ mt₂ t =
      .ok (.inference ("req_" ++ toString t) m₂ p₂ mt₂ true) := by
  constructor
  · simp [send_inference, h₁]
  · simp [send_inference, h₂]

/-- Witness for C9 amended: two same-millisecond submissions both carry
id `req_1000`. -/
theorem correlation_id_time_derived_witness :
    send_inference ⟨some "k", true, true⟩ "m1" "p1" 10 1000 =
      .ok (.inference ("req_" ++ toString 1000) "m1" "p1" 10 true) ∧
    send_inference ⟨some "k", true, true⟩ "m2" "p2" 20 1000 =
      .ok (.inference ("req_" ++ toString 1000) "m2" "p2" 20 true) :=
  correlation_id_time_derived ⟨some "k", true, true⟩ ⟨some "k", true, true⟩
    "m1" "p1" "m2" "p2" 10 20 1000 rfl rfl

/-- Values appearing in a request body dict.  The claims about body
construction concern only which value ends up under which key, so float
parameters are not given numeric semantics; string, integer and boolean
values suffice for the literals the source writes (`'stream': False`,
`'stream': True`). -/
inductive PyVal
  | s (v : String)
  | i (v : Int)
  | b (v : Bool)
deriving DecidableEq, Repr

/-- Lookup in a dict built by a Python dict literal
`{k1: v1, ..., **kwargs}`: the entries are written in order and a later
entry with the same key overrides an earlier one. -/
def py_lookup : List (String × PyVal) → String → Option PyVal
  | [], _ => none
  | e :: rest, k =>
    match py_lookup rest k with
    | some v => some v
    | none => if e.1 == k then some e.2 else none

/-- The `request_data` dict of `InfernoClient.inference`:
`{'model': ..., 'prompt': ..., 'max_tokens': ..., 'temperature': ...,
  'top_p': ..., 'top_k': ..., 'stream': False, **kwargs}`. -/
def inference_request_data (model prompt max_tokens temperature top_p top_k : PyVal)
    (kwargs : List (String × PyVal)) : List (String × PyVal) :=
  [("model", model), ("prompt", prompt), ("max_tokens", max_tokens),
      ("temperature", temperature), ("top_p", top_p), ("top_k", top_k),
      ("stream", .b false)]
    ++ kwargs

/-- The `request_data` dict of `InfernoClient.stream_inference`:
`{'model': ..., 'prompt': ..., 'max_tokens': ..., 'stream': True,
  **kwargs}`. -/
def stream_inference_request_data (model prompt max_tokens : PyVal)
    (kwargs : List (String × PyVal)) : List (String × PyVal) :=
  [("model", model), ("prompt", prompt), ("max_tokens", max_tokens),
      ("stream", .b true)]
    ++ kwargs

/-- The `request_data` dict of `InfernoClient.chat_completion`:
`{'model': ..., 'messages': ..., **kwargs}`. -/
def chat_completion_request_data (model messages : PyVal)
    (kwargs : List (String × PyVal)) : List (String × PyVal) :=
  [("model", model), ("messages", messages)] ++ kwargs

theorem py_lookup_append (l₁ l₂ : List (String × PyVal)) (k : String) :
    py_lookup (l₁ ++ l₂) k =
      match py_lookup l₂ k with
      | some v => some v
      | none => py_lookup l₁ k := by
  induction l₁ with
  | nil =>
    match h : py_lookup l₂ k with
    | some v => simp [h]
    | none => simp [h, py_lookup]
  | cons e rest ih =>
    match h : py_lookup l₂ k with
    | some v => simp [py_lookup, ih, h]
    | none => simp [py_lookup, ih, h]

/-- C8 counterexample.  An options-mapping entry named `stream` — which
Python does pass into `**kwargs`, since `stream` is not a declared
parameter of `inference` — overrides the fixed field: the body sends
`stream = True` although the fixed field set `stream = False`, so the
named field does not take precedence. -/
theorem kwargs_override_counterexample :
    py_lookup (inference_request_data (.s "m") (.s "p") (.i 100) (.i 1) (.i 1)
      (.i 40) [("stream", .b true)]) "stream" = some (.b true) ∧
    some (PyVal.b true) ≠ some (PyVal.b false) := by
  refine ⟨rfl, by decide⟩

/-- C8 amended.  The dicts of `inference`, `stream_inference` and
`chat_completion` are built with `**kwargs` merged *last*, so an
options-mapping entry takes precedence over a same-named fixed field;
a fixed field's value is sent exactly when the mapping has no entry of
that name.  (For keys that are declared parameter names — e.g. `model` —
a Python call can never place them in `**kwargs`, so those fixed fields
are never overridden in practice; `stream` is not a parameter name and
is overridable.) -/
theorem request_field_merge_spec
    (model prompt max_tokens temperature top_p top_k messages : PyVal)
    (kwargs : List (String × PyVal)) (k : String) :
    (∀ v, py_lookup kwargs k = some v →
      py_lookup (inference_request_data model prompt max_tokens temperature
        top_p top_k kwargs) k = some v ∧
      py_lookup (stream_inference_request_data model prompt max_tokens kwargs) k
        = some v ∧
      py_lookup (chat_completion_request_data model messages kwargs) k = some v) ∧
    (py_lookup kwargs k = none →
      py_lookup (inference_request_data model prompt max_tokens temperature
          top_p top_k kwargs) k =
        py_lookup [("model", model), ("prompt", prompt),
          ("max_tokens", max_tokens), ("temperature", temperature),
          ("top_p", top_p), ("top_k", top_k), ("stream", .b false)] k ∧
      py_lookup (stream_inference_request_data model prompt max_tokens kwargs) k =
        py_lookup [("model", model), ("prompt", prompt),
          ("max_tokens", max_tokens), ("stream", .b true)] k ∧
      py_lookup (chat_completion_request_data model messages kwargs) k =
        py_lookup [("model", model), ("messages", messages)] k) := by
  constructor
  · intro v hv
    refine ⟨?_, ?_, ?_⟩ <;>
      simp [inference_request_data, stream_inference_request_data,
        chat_completion_request_data, py_lookup, hv]
  · intro hnone
    refine ⟨?_, ?_, ?_⟩ <;>
      simp [inference_request_data, stream_inference_request_data,
        chat_completion_request_data, py_lookup, hnone]

/-- Witness for C8 amended: with `kwargs = [("stream", True)]` the
`stream` entry of the mapping is what is sent in all three bodies, and
with empty kwargs the fixed `model` field is what is sent. -/
theorem request_field_merge_spec_witness :
    (py_lookup (inference_request_data (.s "m") (.s "p") (.i 100) (.i 1) (.i 1)
        (.i 40) [("stream", .b true)]) "stream" = some (.b true) ∧
      py_lookup (stream_inference_request_data (.s "m") (.s "p") (.i 100)
        [("stream", .b true)]) "stream" = some (.b true) ∧
      py_lookup (chat_completion_request_data (.s "m") (.s "msgs")
        [("stream", .b true)]) "stream" = some (.b true)) ∧
    (py_lookup (inference_request_data (.s "m") (.s "p") (.i 100) (.i 1) (.i 1)
        (.i 40) []) "model" =
      py_lookup [("model", .s "m"), ("prompt", .s "p"), ("max_tokens", .i 100),
        ("temperature", .i 1), ("top_p", .i 1), ("top_k", .i 40),
        ("stream", .b false)] "model") :=
  ⟨(request_field_merge_spec (.s "m") (.s "p") (.i 100) (.i 1) (.i 1) (.i 40)
      (.s "msgs") [("stream", .b true)] "stream").1 (.b true) rfl,
   ((request_field_merge_spec (.s "m") (.s "p") (.i 100) (.i 1) (.i 1) (.i 40)
      (.s "msgs") [] "model").2 rfl).1⟩

end Inferno
